import Mathlib

/-!
Shallow embedding of `src/utils.c` of the SimpleHTTPServer (spidey) project,
together with theorems settling the specification claims about its four
utilities: `determine_mimetype`, `determine_request_path`,
`http_status_string`, `skip_whitespace` and `skip_nonwhitespace`.

C strings are modelled as `List Char` (the characters before the NUL
terminator; C strings contain no interior NUL) or, for the path resolver,
as Lean `String`s.  The filesystem behaviour of `realpath(3)` is modelled
as an oracle `String → Option String` passed explicitly.
-/

set_option autoImplicit false

namespace Spidey

/-- isspace(3) in the default C locale: space, tab, newline, vertical tab,
form feed, carriage return.  Used both by `skip_whitespace` /
`skip_nonwhitespace` (utils.c uses `isspace`) and as the `WHITESPACE`
delimiter set of the `strtok` calls in `determine_mimetype`. -/
def isWS (c : Char) : Bool :=
  c = ' ' || c = '\t' || c = '\n' || c = '\x0b' || c = '\x0c' || c = '\x0d'

/-! ## Text-scan primitives (utils.c lines 156-184) -/

/-- Outcome of the `skip_nonwhitespace` loop on a NUL-terminated buffer:
either it stopped at a whitespace byte inside the buffer (`ok rest`, the
cursor now pointing at that byte), or it ran past the NUL terminator
(`pastEnd`) because neither any buffer byte nor the terminator itself is
whitespace — an out-of-bounds read in the C code. -/
inductive ScanOut where
  | ok (rest : List Char)
  | pastEnd
deriving DecidableEq

/-- Loop body of `skip_nonwhitespace` (utils.c lines 161-163):
`while (isspace(*s) == 0) s++;`.  `isspace` is also 0 on the NUL
terminator, so reaching the end of the character list means the loop
continues past the terminator. -/
def scanNonWS : List Char → ScanOut
  | [] => ScanOut.pastEnd
  | c :: cs => if isWS c then ScanOut.ok (c :: cs) else scanNonWS cs

/-- `skip_nonwhitespace` (utils.c lines 156-166): NULL input returns NULL;
otherwise run the scan loop. -/
def skip_nonwhitespace (s : Option (List Char)) : Option ScanOut :=
  s.map scanNonWS

/-- Loop body of `skip_whitespace` (utils.c lines 179-181):
`while (isspace(*s)) s++;`.  The loop stops at the NUL terminator because
`isspace` is 0 there, so it is total over the buffer. -/
def scanWS : List Char → List Char
  | [] => []
  | c :: cs => if isWS c then scanWS cs else c :: cs

/-- `skip_whitespace` (utils.c lines 174-184): NULL input returns NULL;
otherwise advance past leading whitespace. -/
def skip_whitespace (s : Option (List Char)) : Option (List Char) :=
  s.map scanWS

/-! ## Content-type resolver (utils.c lines 34-81) -/

/-- `streq(a, b)` from spidey.h: `strcmp(a, b) == 0`, byte-exact and
case-sensitive equality of C strings. -/
def streq (a b : List Char) : Bool := a == b

/-- Accumulating tokenizer: `strtokAux cur l` processes the rest `l` of the
line with the (reversed) partial token `cur`. -/
def strtokAux (cur : List Char) : List Char → List (List Char)
  | [] => if cur.isEmpty then [] else [cur.reverse]
  | c :: cs =>
      if isWS c then
        if cur.isEmpty then strtokAux [] cs
        else cur.reverse :: strtokAux [] cs
      else strtokAux (c :: cur) cs

/-- The sequence of tokens produced by the successive
`strtok(buffer, WHITESPACE)` / `strtok(NULL, WHITESPACE)` calls of
utils.c lines 63 and 75: the maximal runs of non-whitespace characters of
the line, in order.  Every token is nonempty. -/
def strtok_tokens (line : List Char) : List (List Char) :=
  strtokAux [] line

/-- The trailing-whitespace trim of utils.c lines 67-71:
`back = c + strlen(c) - 1; while (c < back && isspace(*back)) back--;
*(back + 1) = 0;`.  Because of the `c < back` guard the first character is
never removed, so an all-whitespace nonempty string trims to its first
character. -/
def c_rtrim (l : List Char) : List Char :=
  match l with
  | [] => []
  | a :: _ =>
      let r := (l.reverse.dropWhile isWS).reverse
      if r.isEmpty then [a] else r

/-- The C string still reachable through `c` after the first
`strtok(buffer, WHITESPACE)` call has placed a NUL after the first token:
the line's leading whitespace followed by its first token.  This is the
string the match branch of utils.c lines 66-73 trims and duplicates. -/
def matched_line_value (line : List Char) : List Char :=
  c_rtrim (line.takeWhile isWS ++ (line.dropWhile isWS).takeWhile (fun c => !(isWS c)))

/-- The inner token loop of utils.c lines 64-76 finds a match on `line`
iff some `strtok` token, after the (no-op) `skip_whitespace`, is `streq`
to the requested extension. -/
def lineMatches (ext line : List Char) : Bool :=
  (strtok_tokens line).any (fun t => streq (scanWS t) ext)

/-- The `fgets` scan loop of utils.c lines 61-78 over the lines of the
rules file: the first line containing a matching token wins and yields
the trimmed leading field; if no line matches the scan returns nothing. -/
def scanLines (ext : List Char) : List (List Char) → Option (List Char)
  | [] => none
  | line :: rest =>
      if lineMatches ext line then some (matched_line_value line)
      else scanLines ext rest

/-- `strrchr(path, '.')` followed by `ext = ++temp` (utils.c lines 46-51):
the characters strictly after the last `.` of the path, or `none` when the
path contains no `.` at all.  Note `strrchr` searches the whole path, not
only its final segment. -/
def strrchr_dot_suffix (p : List Char) : Option (List Char) :=
  if '.' ∈ p then some ((p.reverse.takeWhile (fun c => c ≠ '.')).reverse) else none

/-- The part of `determine_mimetype` from the `fopen` of utils.c line 54
onwards, reached once an extension has been extracted: open the rules
file (`mimeRules = none` models a failed `fopen`), scan it, fall back to
the default on no match.  The second component records that the `fopen`
call was reached (file I/O performed). -/
def mimetype_after_ext (DefaultMimeType : List Char)
    (mimeRules : Option (List (List Char))) (ext : List Char) :
    List Char × Bool :=
  match mimeRules with
  | none => (DefaultMimeType, true)
  | some lines =>
    match scanLines ext lines with
    | none => (DefaultMimeType, true)
    | some m => (m, true)

/-- `determine_mimetype` (utils.c lines 34-81), instrumented: the second
component records whether the function reached the `fopen(MimeTypesPath)`
call of line 54 (i.e. performed file I/O).  Parameters model the
process-wide configuration: `DefaultMimeType` is the configured fallback,
and `mimeRules` is the observable content of the file at `MimeTypesPath`
(`none` when `fopen` fails, otherwise the list of lines `fgets` yields).
`path = none` models a NULL path argument. -/
def determine_mimetype_core (DefaultMimeType : List Char)
    (mimeRules : Option (List (List Char))) (path : Option (List Char)) :
    List Char × Bool :=
  match path with
  | none => (DefaultMimeType, false)
  | some p =>
    match strrchr_dot_suffix p with
    | none => (DefaultMimeType, false)
    | some ext => mimetype_after_ext DefaultMimeType mimeRules ext

/-- The value `determine_mimetype` returns to its caller. -/
def determine_mimetype (DefaultMimeType : List Char)
    (mimeRules : Option (List (List Char))) (path : Option (List Char)) :
    List Char :=
  (determine_mimetype_core DefaultMimeType mimeRules path).1

/-- The final path segment of a path (the characters after the last `/`),
used to state the claims about extension extraction. -/
def final_segment (p : List Char) : List Char :=
  (p.reverse.takeWhile (fun c => c ≠ '/')).reverse

/-! ## Request-path resolver (utils.c lines 99-116) -/

/-- `BUFSIZ` from stdio.h; 8192 on glibc, the platform the source
targets. -/
def BUFSIZ : Nat := 8192

/-- The number of bytes `sprintf(combined_path, "%s%s", RootPath, uri)`
(utils.c line 103) writes into the stack buffer `buffer[BUFSIZ]`:
both strings plus the NUL terminator. -/
def sprintf_bytes_written (RootPath uri : String) : Nat :=
  RootPath.length + uri.length + 1

/-- The `sprintf` of utils.c line 103 writes past the end of
`buffer[BUFSIZ]`: there is no length check anywhere in
`determine_request_path`. -/
def sprintf_overflows (RootPath uri : String) : Prop :=
  BUFSIZ < sprintf_bytes_written RootPath uri

instance (RootPath uri : String) : Decidable (sprintf_overflows RootPath uri) := by
  unfold sprintf_overflows; infer_instance

/-- `strncmp(s, t, strlen t) == 0` (utils.c line 111): the first
`strlen t` bytes of `s` equal `t`, i.e. `t` is a byte-exact literal
prefix of `s` (C strings contain no interior NUL). -/
def strncmp_eq_upto (s t : String) : Bool :=
  List.isPrefixOf t.data s.data

/-- `determine_request_path` (utils.c lines 99-116).  `realpath` is the
filesystem oracle modelling `realpath(3)` (line 105): `none` when
canonicalization fails (ENOENT, EACCES, I/O error), otherwise the
canonical absolute path.  The candidate handed to it is the plain
concatenation `RootPath ++ uri` the `sprintf` of line 103 builds (the
write of line 109 places a NUL where one already is and changes nothing).
The sandbox check of line 111 is the raw prefix comparison
`strncmp(combined_path, RootPath, strlen(RootPath))`, applied to the
canonicalized result; a failed check or a failed canonicalization both
return NULL, modelled as `none`. -/
def determine_request_path (realpath : String → Option String)
    (RootPath uri : String) : Option String :=
  match realpath (RootPath ++ uri) with
  | none => none
  | some p => if strncmp_eq_upto p RootPath then some p else none

/-! ## Status-phrase table (utils.c lines 126-148) -/

/-- The `StatusStrings` table of utils.c lines 127-133, including its
fifth, unreachable entry.  (The apostrophe is written `\x27`.) -/
def StatusStrings : List String :=
  ["200 OK", "400 Bad Request", "404 Not Found",
   "500 Internal Server Error", "418 I\x27m A Teapot"]

/-- Modelled from the spec: the `HTTPStatus` enumeration is declared in
spidey.h, which is not under src/; the spec describes it as the closed
enumeration {OK, BadRequest, NotFound, InternalServerError}.  C default
enum numbering assigns consecutive values from 0; the underlying integer
type is modelled as `Nat`, so that codes outside the enumeration can be
passed as in C. -/
def HTTP_STATUS_OK : Nat := 0

/-- Modelled from the spec: see `HTTP_STATUS_OK`. -/
def HTTP_STATUS_BAD_REQUEST : Nat := 1

/-- Modelled from the spec: see `HTTP_STATUS_OK`. -/
def HTTP_STATUS_NOT_FOUND : Nat := 2

/-- Modelled from the spec: see `HTTP_STATUS_OK`. -/
def HTTP_STATUS_INTERNAL_SERVER_ERROR : Nat := 3

/-- `http_status_string` (utils.c lines 126-148): the if/else-if chain
over the four enumeration constants, indexing into `StatusStrings`;
any other code falls through to `return NULL`, modelled as `none`. -/
def http_status_string (status : Nat) : Option String :=
  if status = HTTP_STATUS_OK then StatusStrings[0]?
  else if status = HTTP_STATUS_BAD_REQUEST then StatusStrings[1]?
  else if status = HTTP_STATUS_NOT_FOUND then StatusStrings[2]?
  else if status = HTTP_STATUS_INTERNAL_SERVER_ERROR then StatusStrings[3]?
  else none

/-- A URI of 8192 letters `a`, long enough that concatenating it with any
nonempty root exceeds `buffer[BUFSIZ]`. -/
def uri_8192_a : String := ⟨List.replicate 8192 'a'⟩

/-! ## Theorems for the claims -/

/-- Reduction of `determine_request_path` when canonicalization fails. -/
theorem determine_request_path_realpath_none
    {realpath : String → Option String} {RootPath uri : String}
    (h : realpath (RootPath ++ uri) = none) :
    determine_request_path realpath RootPath uri = none := by
  unfold determine_request_path
  rw [h]

/-- Reduction of `determine_request_path` when canonicalization succeeds:
what remains is exactly the prefix check of utils.c line 111. -/
theorem determine_request_path_realpath_some
    {realpath : String → Option String} {RootPath uri p : String}
    (h : realpath (RootPath ++ uri) = some p) :
    determine_request_path realpath RootPath uri =
      if strncmp_eq_upto p RootPath then some p else none := by
  unfold determine_request_path
  rw [h]

/-- Claim C1: for every `realpath` oracle that only ever produces canonical
absolute paths, every root and every caller-supplied URI string,
`determine_request_path` either returns `none` (absent) or returns a path
produced by canonicalization that begins with `RootPath` as a byte-exact
literal prefix; it never returns a path failing the prefix check. -/
theorem determine_request_path_sandbox_invariant
    (realpath : String → Option String) (Canonical : String → Prop)
    (hcanon : ∀ s p, realpath s = some p → Canonical p)
    (RootPath uri : String) :
    determine_request_path realpath RootPath uri = none ∨
      ∃ p, determine_request_path realpath RootPath uri = some p ∧
        Canonical p ∧ strncmp_eq_upto p RootPath = true := by
  cases h : realpath (RootPath ++ uri) with
  | none => exact Or.inl (determine_request_path_realpath_none h)
  | some q =>
      by_cases hq : strncmp_eq_upto q RootPath = true
      · refine Or.inr ⟨q, ?_, hcanon _ _ h, hq⟩
        rw [determine_request_path_realpath_some h, if_pos hq]
      · refine Or.inl ?_
        rw [determine_request_path_realpath_some h, if_neg hq]

/-- Witness for C1 at a concrete oracle, root and URI. -/
theorem determine_request_path_sandbox_invariant_witness :
    determine_request_path (fun _ => some "/r/x") "/r" "/x" = none ∨
      ∃ p, determine_request_path (fun _ => some "/r/x") "/r" "/x" = some p ∧
        (fun q => q = "/r/x") p ∧ strncmp_eq_upto p "/r" = true :=
  determine_request_path_sandbox_invariant (fun _ => some "/r/x")
    (fun q => q = "/r/x")
    (fun _ p h => by cases h; rfl) "/r" "/x"

/-- Claim C2 (code bug): the combined path is composed by an unchecked
`sprintf` into a fixed `buffer[BUFSIZ]`.  At root `/` and a URI of 8192
characters the `sprintf` writes 8194 bytes into the 8192-byte stack buffer
— an overflow — and `determine_request_path` does not reject the oversized
input: with an oracle canonicalizing the candidate to `/`, it proceeds and
returns a path instead of the absent result the claim requires. -/
theorem determine_request_path_sprintf_overflow :
    sprintf_overflows "/" uri_8192_a ∧
    sprintf_bytes_written "/" uri_8192_a = 8194 ∧
    determine_request_path (fun _ => some "/") "/" uri_8192_a = some "/" := by
  have h1 : uri_8192_a.length = 8192 := List.length_replicate 8192 'a'
  have hlen : sprintf_bytes_written "/" uri_8192_a = 8194 := by
    show "/".length + uri_8192_a.length + 1 = 8194
    rw [h1]
    decide
  refine ⟨?_, hlen, rfl⟩
  show BUFSIZ < sprintf_bytes_written "/" uri_8192_a
  rw [hlen]
  decide

/-- Claim C3: the sandbox check is exactly the byte-exact string-prefix
comparison of the canonicalized path against `RootPath`, applied after
canonicalization: `determine_request_path` succeeds with `p` iff the
oracle canonicalizes the concatenation to `p` and `RootPath` is a literal
prefix of `p`.  Consequently, for root `/srv/www`, a URI canonicalizing to
the sibling `/srv/wwwhack` is accepted, the byte-exact prefix check
passing with no separator required after the prefix. -/
theorem determine_request_path_prefix_check_exact :
    (∀ (realpath : String → Option String) (RootPath uri p : String),
      determine_request_path realpath RootPath uri = some p ↔
        realpath (RootPath ++ uri) = some p ∧ strncmp_eq_upto p RootPath = true) ∧
    determine_request_path (fun _ => some "/srv/wwwhack") "/srv/www" "/../wwwhack"
      = some "/srv/wwwhack" ∧
    strncmp_eq_upto "/srv/wwwhack" "/srv/www" = true := by
  refine ⟨?_, by decide, by decide⟩
  intro realpath RootPath uri p
  constructor
  · intro hsome
    cases h : realpath (RootPath ++ uri) with
    | none =>
        rw [determine_request_path_realpath_none h] at hsome
        exact absurd hsome (by simp)
    | some q =>
        rw [determine_request_path_realpath_some h] at hsome
        by_cases hq : strncmp_eq_upto q RootPath = true
        · rw [if_pos hq] at hsome
          injection hsome with hqp
          subst hqp
          exact ⟨rfl, hq⟩
        · rw [if_neg hq] at hsome
          exact absurd hsome (by simp)
  · rintro ⟨h1, h2⟩
    rw [determine_request_path_realpath_some h1, if_pos h2]

/-- Witness for C3: the characterization applied at a concrete oracle,
root, URI and result. -/
theorem determine_request_path_prefix_check_exact_witness :
    determine_request_path (fun _ => some "/a/b") "/a" "/b" = some "/a/b" :=
  (determine_request_path_prefix_check_exact.1 (fun _ => some "/a/b")
    "/a" "/b" "/a/b").mpr ⟨rfl, by decide⟩

/-- Claim C4: when canonicalization of the concatenated candidate fails
(`realpath` returns `none`, covering nonexistent paths, permission errors
and I/O errors) `determine_request_path` returns `none`, and when the
canonicalized path fails the sandbox prefix check it returns the very
same `none` — the two failures are indistinguishable to the caller, and
no partial result exists (the result is either `none` or a full path). -/
theorem determine_request_path_uniform_notfound
    (realpath : String → Option String) (RootPath uri : String) :
    (realpath (RootPath ++ uri) = none →
      determine_request_path realpath RootPath uri = none) ∧
    (∀ p, realpath (RootPath ++ uri) = some p →
      strncmp_eq_upto p RootPath = false →
      determine_request_path realpath RootPath uri = none) := by
  constructor
  · intro h
    exact determine_request_path_realpath_none h
  · intro p h hp
    rw [determine_request_path_realpath_some h, if_neg (by simp [hp])]

/-- Witness for C4: both failure modes at concrete inputs yield `none`. -/
theorem determine_request_path_uniform_notfound_witness :
    determine_request_path (fun _ => none) "/r" "/missing" = none ∧
    determine_request_path (fun _ => some "/etc/passwd") "/r" "/x" = none :=
  ⟨(determine_request_path_uniform_notfound (fun _ => none) "/r" "/missing").1 rfl,
   (determine_request_path_uniform_notfound (fun _ => some "/etc/passwd") "/r" "/x").2
     "/etc/passwd" rfl (by decide)⟩

/-- Claim C10 counterexample: a root that names an existing directory but
whose canonical form differs from its given spelling (here `/srv/link`, a
symbolic link canonicalizing to `/data`).  The oracle succeeds on the
root, yet `determine_request_path` with the empty URI returns `none`, not
the canonicalized root, because the canonical form fails the literal
prefix check. -/
theorem determine_request_path_empty_uri_counterexample :
    (fun s => if s = "/srv/link" then some "/data" else none) "/srv/link"
      = some "/data" ∧
    determine_request_path
      (fun s => if s = "/srv/link" then some "/data" else none) "/srv/link" ""
      = none := by
  constructor
  · decide
  · decide

/-- Claim C10 as amended: for the empty URI string, provided
canonicalizing `RootPath` succeeds (it names an existing object) and the
canonical result begins with `RootPath` as a literal prefix (in
particular when `RootPath` is already in canonical form),
`determine_request_path` returns the canonicalized `RootPath` itself. -/
theorem determine_request_path_empty_uri
    (realpath : String → Option String) (RootPath r : String)
    (h1 : realpath RootPath = some r)
    (h2 : strncmp_eq_upto r RootPath = true) :
    determine_request_path realpath RootPath "" = some r := by
  have h0 : realpath (RootPath ++ "") = some r := by
    rw [String.append_empty]
    exact h1
  rw [determine_request_path_realpath_some h0, if_pos h2]

/-- Witness for C10 (amended) at a concrete canonical root. -/
theorem determine_request_path_empty_uri_witness :
    determine_request_path (fun _ => some "/srv/www") "/srv/www" ""
      = some "/srv/www" :=
  determine_request_path_empty_uri (fun _ => some "/srv/www") "/srv/www"
    "/srv/www" rfl (by decide)

/-- Reduction of `determine_mimetype_core` on a non-NULL path: what
remains is the dispatch on the extension `strrchr` extracts. -/
theorem determine_mimetype_core_some (d : List Char)
    (rules : Option (List (List Char))) (p : List Char) :
    determine_mimetype_core d rules (some p) =
      match strrchr_dot_suffix p with
      | none => (d, false)
      | some ext => mimetype_after_ext d rules ext := rfl

/-- The scan of the rules file returns the first matching line's value:
lines before the first match contribute nothing. -/
theorem scanLines_first_match (ext l : List Char) (pre post : List (List Char))
    (hpre : ∀ l2 ∈ pre, lineMatches ext l2 = false)
    (hl : lineMatches ext l = true) :
    scanLines ext (pre ++ l :: post) = some (matched_line_value l) := by
  induction pre with
  | nil => simp [scanLines, hl]
  | cons a pre ih =>
      have ha : lineMatches ext a = false := hpre a (by simp)
      simp only [List.cons_append, scanLines, ha]
      simp only [Bool.false_eq_true, if_false]
      exact ih (fun l2 h2 => hpre l2 (by simp [h2]))

/-- Claim C5 counterexample: extension `html` requested against a rules
file whose first line is `html png` — no token after the first equals
`html`, so by the claim the scan should pass over this line and return
`text/html` from the second; but the code also tests the leading
type-name token, matches `html` on the first line, and returns `html`. -/
theorem determine_mimetype_leading_token_counterexample :
    (strtok_tokens (("html png\n").data)).tail = [("png").data] ∧
    determine_mimetype (("text/plain").data)
      (some [("html png\n").data, ("text/html html\n").data])
      (some (("x.html").data))
      = ("html").data ∧
    ("html").data ≠ ("text/html").data := by
  decide

/-- Claim C5 as amended: `determine_mimetype` scans lines in file order
and compares every whitespace-separated token of a line — the leading
type-name token included — case-sensitively and exactly to the requested
extension; the first line containing any matching token wins (later lines
with the same extension are never reached), and on a match the returned
value is that line's leading field (its leading whitespace followed by
its first token, trailing whitespace trimmed).  In particular, for a
rules file containing `text/html  htm html` and request path
`index.html`, it returns `text/html`. -/
theorem determine_mimetype_first_match_scan :
    (∀ (d p ext : List Char) (pre post : List (List Char)) (l : List Char),
      strrchr_dot_suffix p = some ext →
      (∀ l2 ∈ pre, lineMatches ext l2 = false) →
      lineMatches ext l = true →
      determine_mimetype d (some (pre ++ l :: post)) (some p)
        = matched_line_value l) ∧
    determine_mimetype (("text/plain").data)
      (some [("text/html  htm html\n").data]) (some (("index.html").data))
      = ("text/html").data := by
  constructor
  · intro d p ext pre post l hext hpre hl
    unfold determine_mimetype
    rw [determine_mimetype_core_some, hext]
    show (match scanLines ext (pre ++ l :: post) with
          | none => (d, true)
          | some m => (m, true)).1 = matched_line_value l
    rw [scanLines_first_match ext l pre post hpre hl]
  · decide

/-- Witness for C5 (amended): the first-match scan applied at a concrete
default, rules file, path, extension and line split. -/
theorem determine_mimetype_first_match_scan_witness :
    determine_mimetype (("text/plain").data)
      (some [("image/png png\n").data, ("text/css css\n").data])
      (some (("a.css").data))
      = matched_line_value (("text/css css\n").data) :=
  determine_mimetype_first_match_scan.1 (("text/plain").data)
    (("a.css").data) (("css").data) [("image/png png\n").data] []
    (("text/css css\n").data) (by decide) (by decide) (by decide)

/-- Claim C6: `determine_mimetype` is total (it is a Lean function) and
degrades to the same `DefaultMimeType` in every failure mode: NULL path,
path without a `.`, unopenable rules file, and a full scan with no
matching line. -/
theorem determine_mimetype_total_default
    (d : List Char) (rules : Option (List (List Char)))
    (p ext : List Char) (lines : List (List Char)) :
    determine_mimetype d rules none = d ∧
    (strrchr_dot_suffix p = none → determine_mimetype d rules (some p) = d) ∧
    determine_mimetype d none (some p) = d ∧
    (strrchr_dot_suffix p = some ext → scanLines ext lines = none →
      determine_mimetype d (some lines) (some p) = d) := by
  refine ⟨rfl, ?_, ?_, ?_⟩
  · intro h
    unfold determine_mimetype
    rw [determine_mimetype_core_some, h]
  · unfold determine_mimetype
    rw [determine_mimetype_core_some]
    cases h : strrchr_dot_suffix p with
    | none => rfl
    | some e => rfl
  · intro h1 h2
    unfold determine_mimetype
    rw [determine_mimetype_core_some, h1]
    show (match scanLines ext lines with
          | none => (d, true)
          | some m => (m, true)).1 = d
    rw [h2]

/-- Witness for C6: all four failure modes at concrete inputs return the
concrete default `text/plain`. -/
theorem determine_mimetype_total_default_witness :
    determine_mimetype (("text/plain").data) none none = ("text/plain").data ∧
    determine_mimetype (("text/plain").data) (some [("text/html html\n").data])
      (some (("noext").data)) = ("text/plain").data ∧
    determine_mimetype (("text/plain").data) none (some (("a.zzz").data))
      = ("text/plain").data ∧
    determine_mimetype (("text/plain").data) (some [("text/html html\n").data])
      (some (("a.zzz").data)) = ("text/plain").data :=
  ⟨(determine_mimetype_total_default (("text/plain").data) none
      [] [] []).1,
   (determine_mimetype_total_default (("text/plain").data)
      (some [("text/html html\n").data]) (("noext").data) [] []).2.1 (by decide),
   (determine_mimetype_total_default (("text/plain").data) none
      (("a.zzz").data) [] []).2.2.1,
   (determine_mimetype_total_default (("text/plain").data)
      (some [("text/html html\n").data]) (("a.zzz").data) (("zzz").data)
      [("text/html html\n").data]).2.2.2 (by decide) (by decide)⟩

/-- Claim C7 counterexample: the path `a.b/c`, whose final segment `c`
contains no `.`.  The claim requires the default type with no file I/O;
the code takes the suffix after the last `.` anywhere in the path
(`strrchr`), here `b/c`, opens the rules file, and can even return a
non-default type when a rule line carries that token. -/
theorem determine_mimetype_final_segment_counterexample :
    ('.' ∈ final_segment (("a.b/c").data) → False) ∧
    determine_mimetype_core (("text/plain").data)
      (some [("x/y b/c\n").data]) (some (("a.b/c").data))
      = (("x/y").data, true) ∧
    ("x/y").data ≠ ("text/plain").data := by
  decide

/-- Claim C7 as amended: for a NULL path, or a path containing no `.`
anywhere, `determine_mimetype` returns the default immediately and never
reaches the `fopen` of the rules file; conversely any `.` anywhere in the
path — even outside the final segment — makes it open the rules file. -/
theorem determine_mimetype_no_dot_default
    (d : List Char) (rules : Option (List (List Char))) (p : List Char) :
    determine_mimetype_core d rules none = (d, false) ∧
    ('.' ∉ p → determine_mimetype_core d rules (some p) = (d, false)) ∧
    ('.' ∈ p → (determine_mimetype_core d rules (some p)).2 = true) := by
  refine ⟨rfl, ?_, ?_⟩
  · intro h
    have hx : strrchr_dot_suffix p = none := by
      unfold strrchr_dot_suffix
      rw [if_neg h]
    rw [determine_mimetype_core_some, hx]
  · intro h
    have hx : strrchr_dot_suffix p
        = some ((p.reverse.takeWhile (fun c => c ≠ '.')).reverse) := by
      unfold strrchr_dot_suffix
      rw [if_pos h]
    rw [determine_mimetype_core_some, hx]
    show (mimetype_after_ext d rules
      ((p.reverse.takeWhile (fun c => c ≠ '.')).reverse)).2 = true
    cases rules with
    | none => rfl
    | some lines =>
        show (match scanLines ((p.reverse.takeWhile (fun c => c ≠ '.')).reverse) lines with
              | none => (d, true)
              | some m => (m, true)).2 = true
        cases h2 : scanLines ((p.reverse.takeWhile (fun c => c ≠ '.')).reverse) lines with
        | none => rfl
        | some m => rfl

/-- Witness for C7 (amended): concrete NULL path, dotless path and dotted
path. -/
theorem determine_mimetype_no_dot_default_witness :
    determine_mimetype_core (("text/plain").data) (some []) none
      = (("text/plain").data, false) ∧
    determine_mimetype_core (("text/plain").data) (some [])
      (some (("nodot").data)) = (("text/plain").data, false) ∧
    (determine_mimetype_core (("text/plain").data) (some [])
      (some (("a.b").data))).2 = true :=
  ⟨(determine_mimetype_no_dot_default (("text/plain").data) (some [])
      (("nodot").data)).1,
   (determine_mimetype_no_dot_default (("text/plain").data) (some [])
      (("nodot").data)).2.1 (by decide),
   (determine_mimetype_no_dot_default (("text/plain").data) (some [])
      (("a.b").data)).2.2 (by decide)⟩

/-- Claim C8 (code bug, evaluated): `skip_whitespace` behaves as claimed —
NULL in, NULL out; a string with no leading whitespace comes back
unchanged; an all-whitespace string advances exactly to end-of-string —
and `skip_nonwhitespace` does stop at the first whitespace byte and map
NULL to NULL; but on a string containing no whitespace byte at all its
loop runs past the NUL terminator (`isspace` is false on NUL too) instead
of stopping at end-of-string. -/
theorem skip_scan_primitives_eval :
    skip_whitespace none = none ∧
    skip_whitespace (some (("ab cd").data)) = some (("ab cd").data) ∧
    skip_whitespace (some (("  \t ").data)) = some [] ∧
    skip_nonwhitespace none = none ∧
    skip_nonwhitespace (some (("ab cd").data)) = some (ScanOut.ok ((" cd").data)) ∧
    skip_nonwhitespace (some (("abc").data)) = some ScanOut.pastEnd := by
  decide

/-- Claim C9: the status table maps OK to `200 OK`, BadRequest to
`400 Bad Request`, NotFound to `404 Not Found` and InternalServerError to
`500 Internal Server Error`; every code outside the four-value
enumeration yields `none`; and the reserved teapot entry, although
present in `StatusStrings`, is never returned for any input. -/
theorem http_status_string_table :
    http_status_string HTTP_STATUS_OK = some "200 OK" ∧
    http_status_string HTTP_STATUS_BAD_REQUEST = some "400 Bad Request" ∧
    http_status_string HTTP_STATUS_NOT_FOUND = some "404 Not Found" ∧
    http_status_string HTTP_STATUS_INTERNAL_SERVER_ERROR
      = some "500 Internal Server Error" ∧
    (∀ s : Nat, 3 < s → http_status_string s = none) ∧
    (∀ s : Nat, http_status_string s ≠ some ("418 I\x27m A Teapot")) ∧
    ("418 I\x27m A Teapot") ∈ StatusStrings := by
  refine ⟨by decide, by decide, by decide, by decide, ?_, ?_, by decide⟩
  · intro s hs
    have h0 : s ≠ HTTP_STATUS_OK := by
      unfold HTTP_STATUS_OK; omega
    have h1 : s ≠ HTTP_STATUS_BAD_REQUEST := by
      unfold HTTP_STATUS_BAD_REQUEST; omega
    have h2 : s ≠ HTTP_STATUS_NOT_FOUND := by
      unfold HTTP_STATUS_NOT_FOUND; omega
    have h3 : s ≠ HTTP_STATUS_INTERNAL_SERVER_ERROR := by
      unfold HTTP_STATUS_INTERNAL_SERVER_ERROR; omega
    unfold http_status_string
    rw [if_neg h0, if_neg h1, if_neg h2, if_neg h3]
  · intro s
    unfold http_status_string
    split_ifs <;> decide

/-- Witness for C9: an out-of-enumeration code yields `none`, and a
concrete in-enumeration code does not yield the teapot entry. -/
theorem http_status_string_table_witness :
    http_status_string 7 = none ∧
    http_status_string 2 ≠ some ("418 I\x27m A Teapot") :=
  ⟨http_status_string_table.2.2.2.2.1 7 (by decide),
   http_status_string_table.2.2.2.2.2.1 2⟩

end Spidey
